import Mathlib

/-! Formal model of the Z.AI chat client (`src/bk/zaai.py`).

The development shallow-embeds the client's pure core: the double-HMAC
signature engine, JWT-payload identity extraction, request-body assembly,
SSE stream decoding and response aggregation.  Machine words are modelled
as `Nat` with explicit reduction modulo `2 ^ 32`; bytes are `Nat` values
below 256; Python exceptions are modelled with `Option`.  Each definition
is translated from the Python source; definitions whose doc comment says
so are instead written from the specification's words, for refinement
comparisons. -/

namespace Zai

/-- Characters that Python's `str.strip` removes: the `str.isspace`
character set (ASCII whitespace, the C1 separators, and the Unicode
space characters). -/
def pyIsSpace (c : Char) : Bool :=
  let n := c.toNat
  (9 ≤ n && n ≤ 13) || n = 32 || (28 ≤ n && n ≤ 31) || n = 133 || n = 160 ||
  n = 5760 || (8192 ≤ n && n ≤ 8202) || n = 8232 || n = 8233 || n = 8239 ||
  n = 8287 || n = 12288

/-- Python `str.strip()`: remove leading and trailing whitespace. -/
def pyStrip (s : String) : String :=
  String.mk (((s.data.dropWhile pyIsSpace).reverse.dropWhile pyIsSpace).reverse)

/-- Python `s.startswith(p)`: code-point prefix test. -/
def startsWithS (s p : String) : Bool :=
  p.data.isPrefixOf s.data

/-- Python `s[n:]`: drop the first `n` code points. -/
def strDrop (s : String) (n : Nat) : String :=
  String.mk (s.data.drop n)

/-- Python `str.lower()` restricted to ASCII letters (the model names the
client handles are ASCII). -/
def lowerStr (s : String) : String :=
  String.mk (s.data.map Char.toLower)

/-- Python `sub in s`: substring containment on code points. -/
def containsSubstr (s sub : String) : Bool :=
  (List.range (s.data.length + 1)).any (fun i => sub.data.isPrefixOf (s.data.drop i))

/-- UTF-8 encoding of one code point (Python `str.encode("utf-8")`,
per character). -/
def utf8EncodeChar (c : Nat) : List Nat :=
  if c < 128 then [c]
  else if c < 2048 then [192 + c / 64, 128 + c % 64]
  else if c < 65536 then [224 + c / 4096, 128 + (c / 64) % 64, 128 + c % 64]
  else [240 + c / 262144, 128 + (c / 4096) % 64, 128 + (c / 64) % 64, 128 + c % 64]

/-- Python `str.encode("utf-8")`: byte sequence of a string. -/
def utf8Encode (s : String) : List Nat :=
  (s.data.map (fun c => utf8EncodeChar c.toNat)).flatten

/-- Addition reduced to 32 bits. -/
def add32 (a b : Nat) : Nat := (a + b) % 4294967296

/-- Right rotation of a 32-bit word. -/
def rotr32 (n x : Nat) : Nat := ((x >>> n) ||| (x <<< (32 - n))) % 4294967296

/-- SHA-256 `Ch` function (`¬x` taken inside 32 bits). -/
def ch32 (x y z : Nat) : Nat := (x &&& y) ^^^ ((x ^^^ 4294967295) &&& z)

/-- SHA-256 `Maj` function. -/
def maj32 (x y z : Nat) : Nat := (x &&& y) ^^^ (x &&& z) ^^^ (y &&& z)

/-- SHA-256 big sigma 0. -/
def bsig0 (x : Nat) : Nat := rotr32 2 x ^^^ rotr32 13 x ^^^ rotr32 22 x

/-- SHA-256 big sigma 1. -/
def bsig1 (x : Nat) : Nat := rotr32 6 x ^^^ rotr32 11 x ^^^ rotr32 25 x

/-- SHA-256 small sigma 0. -/
def ssig0 (x : Nat) : Nat := rotr32 7 x ^^^ rotr32 18 x ^^^ (x >>> 3)

/-- SHA-256 small sigma 1. -/
def ssig1 (x : Nat) : Nat := rotr32 17 x ^^^ rotr32 19 x ^^^ (x >>> 10)

/-- The 64 SHA-256 round constants of FIPS 180-4, in decimal. -/
def sha256K : List Nat :=
  [1116352408, 1899447441, 3049323471, 3921009573, 961987163, 1508970993,
   2453635748, 2870763221, 3624381080, 310598401, 607225278, 1426881987,
   1925078388, 2162078206, 2614888103, 3248222580, 3835390401, 4022224774,
   264347078, 604807628, 770255983, 1249150122, 1555081692, 1996064986,
   2554220882, 2821834349, 2952996808, 3210313671, 3336571891, 3584528711,
   113926993, 338241895, 666307205, 773529912, 1294757372, 1396182291,
   1695183700, 1986661051, 2177026350, 2456956037, 2730485921, 2820302411,
   3259730800, 3345764771, 3516065817, 3600352804, 4094571909, 275423344,
   430227734, 506948616, 659060556, 883997877, 958139571, 1322822218,
   1537002063, 1747873779, 1955562222, 2024104815, 2227730452, 2361852424,
   2428436474, 2756734187, 3204031479, 3329325298]

/-- The eight SHA-256 initial hash words of FIPS 180-4, in decimal. -/
def sha256H0 : List Nat :=
  [1779033703, 3144134277, 1013904242, 2773480762, 1359893119, 2600822924,
   528734635, 1541459225]

/-- SHA-256 message padding: `0x80`, zeros to 56 mod 64, 8-byte big-endian
bit length. -/
def sha256Pad (msg : List Nat) : List Nat :=
  let len := msg.length
  let z := (119 - len % 64) % 64
  msg ++ [128] ++ List.replicate z 0 ++
    (List.range 8).map (fun i => ((len * 8) >>> ((7 - i) * 8)) % 256)

/-- SHA-256 compression of one 64-byte block into the running state. -/
def sha256Compress (h : List Nat) (block : List Nat) : List Nat :=
  let w16 := (List.range 16).map (fun i =>
    (block.getD (4 * i) 0) * 16777216 + (block.getD (4 * i + 1) 0) * 65536 +
    (block.getD (4 * i + 2) 0) * 256 + block.getD (4 * i + 3) 0)
  let w := (List.range 48).foldl (fun w _ =>
    let n := w.length
    w ++ [add32 (add32 (ssig1 (w.getD (n - 2) 0)) (w.getD (n - 7) 0))
               (add32 (ssig0 (w.getD (n - 15) 0)) (w.getD (n - 16) 0))]) w16
  let st := (List.range 64).foldl (fun st t =>
    let a := st.getD 0 0
    let e := st.getD 4 0
    let t1 := add32 (add32 (add32 (st.getD 7 0) (bsig1 e)) (ch32 e (st.getD 5 0) (st.getD 6 0)))
                    (add32 (sha256K.getD t 0) (w.getD t 0))
    let t2 := add32 (bsig0 a) (maj32 a (st.getD 1 0) (st.getD 2 0))
    [add32 t1 t2, a, st.getD 1 0, st.getD 2 0, add32 (st.getD 3 0) t1, e, st.getD 5 0, st.getD 6 0]) h
  List.zipWith add32 h st

/-- SHA-256 digest of a byte sequence (Python `hashlib.sha256`). -/
def sha256 (msg : List Nat) : List Nat :=
  let p := sha256Pad msg
  let hh := (List.range (p.length / 64)).foldl
    (fun h i => sha256Compress h ((p.drop (64 * i)).take 64)) sha256H0
  (hh.map (fun x => [(x >>> 24) % 256, (x >>> 16) % 256, (x >>> 8) % 256, x % 256])).flatten

/-- HMAC-SHA256 (Python `hmac.new(key, msg, hashlib.sha256)`), with the
SHA-256 block size of 64 bytes. -/
def hmacSha256 (key msg : List Nat) : List Nat :=
  let k0 := if 64 < key.length then sha256 key else key
  let kp := k0 ++ List.replicate (64 - k0.length) 0
  sha256 ((kp.map (fun b => b ^^^ 92)) ++ sha256 ((kp.map (fun b => b ^^^ 54)) ++ msg))

/-- Lowercase hexadecimal digit. -/
def hexChar (n : Nat) : Char :=
  if n < 10 then Char.ofNat (48 + n) else Char.ofNat (87 + n)

/-- Lowercase hexadecimal rendering of a byte sequence
(Python `.hexdigest()`). -/
def bytesToHex (bs : List Nat) : String :=
  String.mk ((bs.map (fun b => [hexChar (b / 16), hexChar (b % 16)])).flatten)

/-- The client's `_generate_signature`: two-layer HMAC-SHA256 over the
5-minute window index and the canonical request string. -/
def generate_signature (signing_secret message_text request_id : String)
    (timestamp_ms : Nat) (user_id : String) : String :=
  let window_index := timestamp_ms / (5 * 60 * 1000)
  let root_key := utf8Encode signing_secret
  let derived_hex := bytesToHex (hmacSha256 root_key (utf8Encode (toString window_index)))
  let canonical_string :=
    "requestId," ++ request_id ++ ",timestamp," ++ toString timestamp_ms ++
    ",user_id," ++ user_id ++ "|" ++ message_text ++ "|" ++ toString timestamp_ms
  bytesToHex (hmacSha256 (utf8Encode derived_hex) (utf8Encode canonical_string))

/-- Signature algorithm exactly as the specification's §4.3 states it:
window index `timestamp_ms / 300000`; layer-1 key = hex string of
`HMAC-SHA256(secret, decimal window index)`, whose UTF-8 bytes (the hex
text itself) key layer 2 over the canonical string. -/
def signature_spec (secret message_text request_id : String)
    (timestamp_ms : Nat) (identity : String) : String :=
  let window_index := timestamp_ms / 300000
  let derived_key := bytesToHex (hmacSha256 (utf8Encode secret) (utf8Encode (toString window_index)))
  let canonical :=
    "requestId," ++ request_id ++ ",timestamp," ++ toString timestamp_ms ++
    ",user_id," ++ identity ++ "|" ++ message_text ++ "|" ++ toString timestamp_ms
  bytesToHex (hmacSha256 (utf8Encode derived_key) (utf8Encode canonical))

/-- Decode one UTF-8 scalar from the front of a byte sequence: the code
point and the remaining bytes, or `none` on an invalid sequence (strict
UTF-8: continuation ranges checked, overlongs and surrogates rejected). -/
def decodeUtf8One : List Nat → Option (Nat × List Nat)
  | [] => none
  | b :: rest =>
    if b < 128 then some (b, rest)
    else if 194 ≤ b && b ≤ 223 then
      match rest with
      | b2 :: r2 =>
        if 128 ≤ b2 && b2 ≤ 191 then some ((b - 192) * 64 + (b2 - 128), r2) else none
      | _ => none
    else if 224 ≤ b && b ≤ 239 then
      match rest with
      | b2 :: b3 :: r3 =>
        let lo2 := if b = 224 then 160 else 128
        let hi2 := if b = 237 then 159 else 191
        if (lo2 ≤ b2 && b2 ≤ hi2) && (128 ≤ b3 && b3 ≤ 191) then
          some ((b - 224) * 4096 + (b2 - 128) * 64 + (b3 - 128), r3)
        else none
      | _ => none
    else if 240 ≤ b && b ≤ 244 then
      match rest with
      | b2 :: b3 :: b4 :: r4 =>
        let lo2 := if b = 240 then 144 else 128
        let hi2 := if b = 244 then 143 else 191
        if (lo2 ≤ b2 && b2 ≤ hi2) && (128 ≤ b3 && b3 ≤ 191) && (128 ≤ b4 && b4 ≤ 191) then
          some ((b - 240) * 262144 + (b2 - 128) * 4096 + (b3 - 128) * 64 + (b4 - 128), r4)
        else none
      | _ => none
    else none

/-- Strict UTF-8 decoding with fuel (the fuel is an upper bound on the
number of decoded characters; each step consumes at least one byte). -/
def utf8DecodeFuel : Nat → List Nat → Option (List Char)
  | _, [] => some []
  | 0, _ :: _ => none
  | fuel + 1, b :: bs =>
    match decodeUtf8One (b :: bs) with
    | some (cp, rest) => (utf8DecodeFuel fuel rest).map (fun cs => Char.ofNat cp :: cs)
    | none => none

/-- Python `bytes.decode("utf-8")` (strict): the decoded characters, or
`none` when the bytes are not valid UTF-8. -/
def utf8DecodeList (bs : List Nat) : Option (List Char) :=
  utf8DecodeFuel bs.length bs

/-- Python `bytes.decode("utf-8", errors="ignore")` with fuel: invalid
bytes are skipped instead of failing. -/
def utf8DecodeIgnoreFuel : Nat → List Nat → List Char
  | _, [] => []
  | 0, _ :: _ => []
  | fuel + 1, b :: bs =>
    match decodeUtf8One (b :: bs) with
    | some (cp, rest) => Char.ofNat cp :: utf8DecodeIgnoreFuel fuel rest
    | none => utf8DecodeIgnoreFuel fuel bs

/-- Python `bytes.decode("utf-8", errors="ignore")`: total decoding that
drops undecodable bytes. -/
def utf8DecodeIgnore (bs : List Nat) : String :=
  String.mk (utf8DecodeIgnoreFuel bs.length bs)

/-- Python `bytes.decode("latin-1")`: each byte is one code point; it
never fails. -/
def latin1Decode (bs : List Nat) : String :=
  String.mk (bs.map Char.ofNat)

/-- The value of one base64 alphabet character, with the URL-safe
substitutions `-` for `+` and `_` for `/` folded in (Python's
`urlsafe_b64decode` accepts both alphabets). -/
def b64CharVal (c : Char) : Option Nat :=
  if 'A' ≤ c && c ≤ 'Z' then some (c.toNat - 65)
  else if 'a' ≤ c && c ≤ 'z' then some (c.toNat - 71)
  else if '0' ≤ c && c ≤ '9' then some (c.toNat + 4)
  else if c = '+' || c = '-' then some 62
  else if c = '/' || c = '_' then some 63
  else none

/-- Decode a sequence of 6-bit values into bytes (4 values per 3 bytes,
with the standard 2- and 3-value tails; excess trailing bits dropped). -/
def b64DecodeQuads : List Nat → List Nat
  | a :: b :: c :: d :: rest =>
    (a * 4 + b / 16) :: ((b % 16) * 16 + c / 4) :: ((c % 4) * 64 + d) :: b64DecodeQuads rest
  | [a, b, c] => [a * 4 + b / 16, (b % 16) * 16 + c / 4]
  | [a, b] => [a * 4 + b / 16]
  | [_] => []
  | [] => []

/-- Python `base64.urlsafe_b64decode`: characters outside the alphabet are
discarded; the total count of kept characters must be a multiple of 4,
padding appears only at the end (at most two `=`), and the data-character
count must not be 1 more than a multiple of 4 — otherwise
`binascii.Error` (`none`). -/
def urlsafe_b64decode (s : String) : Option (List Nat) :=
  let cs := s.data.filter (fun c => (b64CharVal c).isSome || c = '=')
  let dataChars := cs.takeWhile (fun c => c ≠ '=')
  let padChars := cs.dropWhile (fun c => c ≠ '=')
  if padChars.all (fun c => c = '=') ∧ cs.length % 4 = 0 ∧
      dataChars.length % 4 ≠ 1 ∧ padChars.length ≤ 2 then
    some (b64DecodeQuads (dataChars.filterMap b64CharVal))
  else none

/-- The decode step of `_extract_user_id_from_token`: append
`"=" * (-len % 4)` and base64url-decode. -/
def b64_with_pad (payload_raw : String) : Option (List Nat) :=
  let padding := String.mk (List.replicate ((4 - payload_raw.length % 4) % 4) '=')
  urlsafe_b64decode (payload_raw ++ padding)

/-- JSON values as Python's `json.loads` produces them: objects are
insertion-ordered key/value lists with unique keys (later duplicates
overwrite in place), numbers split into `int` and `float`; a float keeps
its source text. -/
inductive Json where
  | null : Json
  | bool (b : Bool) : Json
  | int (n : Int) : Json
  | float (raw : String) : Json
  | str (s : String) : Json
  | arr (elems : List Json) : Json
  | obj (members : List (String × Json)) : Json

/-- Python `dict` insertion: replace the value at an existing key in
place, otherwise append. -/
def insertKV : List (String × Json) → String → Json → List (String × Json)
  | [], k, v => [(k, v)]
  | (k1, v1) :: rest, k, v =>
    if k1 = k then (k1, v) :: rest else (k1, v1) :: insertKV rest k v

/-- Look a key up in an object's members (Python `dict.get(k)` on the
parsed object, whose keys are unique). -/
def assocFind {α : Type} (kvs : List (String × α)) (k : String) : Option α :=
  ((kvs.find? (fun p => p.1 = k)).map (fun p => p.2))

/-- The whitespace `json.loads` skips between tokens: space, tab,
newline, carriage return. -/
def skipJsonWs : List Char → List Char
  | c :: cs => if c = ' ' || c = '\t' || c = '\n' || c = '\r' then skipJsonWs cs else c :: cs
  | [] => []

/-- Hexadecimal digit value for `\uXXXX` escapes. -/
def hexVal (c : Char) : Option Nat :=
  if '0' ≤ c && c ≤ '9' then some (c.toNat - 48)
  else if 'a' ≤ c && c ≤ 'f' then some (c.toNat - 87)
  else if 'A' ≤ c && c ≤ 'F' then some (c.toNat - 55)
  else none

/-- Single-character JSON string escapes. -/
def escChar (c : Char) : Option Char :=
  if c = '"' then some '"'
  else if c = '\\' then some '\\'
  else if c = '/' then some '/'
  else if c = 'b' then some (Char.ofNat 8)
  else if c = 'f' then some (Char.ofNat 12)
  else if c = 'n' then some '\n'
  else if c = 'r' then some '\r'
  else if c = 't' then some '\t'
  else none

/-- Scan a JSON string body after the opening quote: the content and the
input after the closing quote.  Control characters are rejected (strict
mode), escapes are decoded, `\uXXXX` surrogate pairs are combined; a
lone surrogate becomes U+FFFD (Lean characters cannot hold it). -/
def scanJsonString : Nat → List Char → Option (List Char × List Char)
  | _, [] => none
  | 0, _ :: _ => none
  | fuel + 1, c :: cs =>
    if c = '"' then some ([], cs)
    else if c.toNat < 32 then none
    else if c = '\\' then
      match cs with
      | [] => none
      | e :: cs2 =>
        if e = 'u' then
          match cs2 with
          | h1 :: h2 :: h3 :: h4 :: cs3 =>
            match hexVal h1, hexVal h2, hexVal h3, hexVal h4 with
            | some v1, some v2, some v3, some v4 =>
              let cp := ((v1 * 16 + v2) * 16 + v3) * 16 + v4
              if 55296 ≤ cp && cp ≤ 56319 then
                match cs3 with
                | '\\' :: 'u' :: g1 :: g2 :: g3 :: g4 :: cs4 =>
                  match hexVal g1, hexVal g2, hexVal g3, hexVal g4 with
                  | some u1, some u2, some u3, some u4 =>
                    let cp2 := ((u1 * 16 + u2) * 16 + u3) * 16 + u4
                    if 56320 ≤ cp2 && cp2 ≤ 57343 then
                      (scanJsonString fuel cs4).map (fun p =>
                        (Char.ofNat (65536 + (cp - 55296) * 1024 + (cp2 - 56320)) :: p.1, p.2))
                    else
                      (scanJsonString fuel cs3).map (fun p => (Char.ofNat 65533 :: p.1, p.2))
                  | _, _, _, _ =>
                    (scanJsonString fuel cs3).map (fun p => (Char.ofNat 65533 :: p.1, p.2))
                | _ =>
                  (scanJsonString fuel cs3).map (fun p => (Char.ofNat 65533 :: p.1, p.2))
              else if 56320 ≤ cp && cp ≤ 57343 then
                (scanJsonString fuel cs3).map (fun p => (Char.ofNat 65533 :: p.1, p.2))
              else
                (scanJsonString fuel cs3).map (fun p => (Char.ofNat cp :: p.1, p.2))
            | _, _, _, _ => none
          | _ => none
        else
          match escChar e with
          | some c2 => (scanJsonString fuel cs2).map (fun p => (c2 :: p.1, p.2))
          | none => none
    else
      (scanJsonString fuel cs).map (fun p => (c :: p.1, p.2))

/-- Scan a JSON number matching Python's number regular expression
`-?(0|[1-9][0-9]*)(\.[0-9]+)?([eE][-+]?[0-9]+)?` as a prefix of the
input; pure integers become `Json.int`, others keep their text as
`Json.float`. -/
def scanJsonNumber (cs : List Char) : Option (Json × List Char) :=
  let sign : List Char × List Char :=
    match cs with
    | '-' :: r => (['-'], r)
    | _ => ([], cs)
  match sign.2 with
  | c :: _ =>
    if c.isDigit then
      let ip : List Char × List Char :=
        if c = '0' then (['0'], sign.2.tail)
        else (sign.2.takeWhile Char.isDigit, sign.2.dropWhile Char.isDigit)
      let fp : List Char × List Char :=
        match ip.2 with
        | '.' :: d :: _ =>
          if d.isDigit then
            ('.' :: (ip.2.tail.takeWhile Char.isDigit), ip.2.tail.dropWhile Char.isDigit)
          else ([], ip.2)
        | _ => ([], ip.2)
      let ep : List Char × List Char :=
        match fp.2 with
        | e :: r1 =>
          if e = 'e' || e = 'E' then
            let body : List Char × List Char :=
              match r1 with
              | s1 :: r2 => if s1 = '+' || s1 = '-' then ([s1], r2) else ([], r1)
              | [] => ([], r1)
            match body.2 with
            | d :: _ =>
              if d.isDigit then
                (e :: body.1 ++ body.2.takeWhile Char.isDigit, body.2.dropWhile Char.isDigit)
              else ([], fp.2)
            | [] => ([], fp.2)
          else ([], fp.2)
        | [] => ([], fp.2)
      if fp.1 = [] ∧ ep.1 = [] then
        let mag : Int := Int.ofNat (Nat.ofDigits 10 ((ip.1.map (fun d => d.toNat - 48)).reverse))
        some (Json.int (if sign.1 = [] then mag else -mag), ip.2)
      else
        some (Json.float (String.mk (sign.1 ++ ip.1 ++ fp.1 ++ ep.1)), ep.2)
    else none
  | [] => none

mutual

/-- Parse one JSON value as Python's scanner does (strings, containers,
literals, numbers, and the non-standard `NaN`/`Infinity` constants). -/
def parseJsonValue : Nat → List Char → Option (Json × List Char)
  | 0, _ => none
  | fuel + 1, cs =>
    match cs with
    | [] => none
    | '"' :: rest =>
      (scanJsonString (rest.length + 1) rest).map (fun p => (Json.str (String.mk p.1), p.2))
    | '{' :: rest =>
      match skipJsonWs rest with
      | '}' :: r2 => some (Json.obj [], r2)
      | r2 => parseJsonMembers fuel r2 []
    | '[' :: rest =>
      match skipJsonWs rest with
      | ']' :: r2 => some (Json.arr [], r2)
      | r2 => (parseJsonElems fuel r2).map (fun p => (Json.arr p.1, p.2))
    | 'n' :: 'u' :: 'l' :: 'l' :: r => some (Json.null, r)
    | 't' :: 'r' :: 'u' :: 'e' :: r => some (Json.bool true, r)
    | 'f' :: 'a' :: 'l' :: 's' :: 'e' :: r => some (Json.bool false, r)
    | 'N' :: 'a' :: 'N' :: r => some (Json.float "nan", r)
    | 'I' :: 'n' :: 'f' :: 'i' :: 'n' :: 'i' :: 't' :: 'y' :: r => some (Json.float "inf", r)
    | '-' :: 'I' :: 'n' :: 'f' :: 'i' :: 'n' :: 'i' :: 't' :: 'y' :: r => some (Json.float "-inf", r)
    | _ => scanJsonNumber cs

/-- Parse the elements of a non-empty JSON array (after `[` and leading
whitespace). -/
def parseJsonElems : Nat → List Char → Option (List Json × List Char)
  | 0, _ => none
  | fuel + 1, cs =>
    match parseJsonValue fuel cs with
    | none => none
    | some (v, r) =>
      match skipJsonWs r with
      | ',' :: r2 =>
        (parseJsonElems fuel (skipJsonWs r2)).map (fun p => (v :: p.1, p.2))
      | ']' :: r2 => some ([v], r2)
      | _ => none

/-- Parse the members of a non-empty JSON object (after `{` and leading
whitespace), accumulating into a Python-style dict. -/
def parseJsonMembers : Nat → List Char → List (String × Json) → Option (Json × List Char)
  | 0, _, _ => none
  | fuel + 1, cs, acc =>
    match cs with
    | '"' :: rest =>
      match scanJsonString (rest.length + 1) rest with
      | none => none
      | some (key, r1) =>
        match skipJsonWs r1 with
        | ':' :: r2 =>
          match parseJsonValue fuel (skipJsonWs r2) with
          | none => none
          | some (v, r3) =>
            match skipJsonWs r3 with
            | ',' :: r4 => parseJsonMembers fuel (skipJsonWs r4) (insertKV acc (String.mk key) v)
            | '}' :: r4 => some (Json.obj (insertKV acc (String.mk key) v), r4)
            | _ => none
        | _ => none
    | _ => none

end

/-- Python `json.loads`: skip surrounding whitespace, parse one value,
and reject any extra data. -/
def json_loads (s : String) : Option Json :=
  let cs := skipJsonWs s.data
  match parseJsonValue (cs.length + 1) cs with
  | some (j, r) => if skipJsonWs r = [] then some j else none
  | none => none

/-- Whether a parsed float literal denotes 0.0: its mantissa digits (the
text before any exponent) are all zero.  `nan`/`inf` have no digits and
are truthy. -/
def floatRawIsZero (raw : String) : Bool :=
  let digits := (raw.data.takeWhile (fun c => c ≠ 'e' && c ≠ 'E')).filter Char.isDigit
  !digits.isEmpty && digits.all (fun c => c = '0')

/-- Python truthiness (`if val:`) of a parsed JSON value. -/
def pyTruthy : Json → Bool
  | Json.null => false
  | Json.bool b => b
  | Json.int n => n != 0
  | Json.float raw => !floatRawIsZero raw
  | Json.str s => s ≠ ""
  | Json.arr elems => !elems.isEmpty
  | Json.obj members => !members.isEmpty

mutual

/-- Python `repr` of a parsed JSON value, approximated: scalars are exact
(floats keep their literal text); container and string `repr` escaping is
simplified to backslash, quote and the common control characters. -/
def pyRepr : Json → String
  | Json.null => "None"
  | Json.bool b => if b then "True" else "False"
  | Json.int n => toString n
  | Json.float raw => raw
  | Json.str s => "'" ++ String.mk ((s.data.map (fun c =>
      if c = '\\' then ['\\', '\\']
      else if c = '\'' then ['\\', '\'']
      else if c = '\n' then ['\\', 'n']
      else if c = '\r' then ['\\', 'r']
      else if c = '\t' then ['\\', 't']
      else [c])).flatten) ++ "'"
  | Json.arr elems => "[" ++ pyReprL elems ++ "]"
  | Json.obj members => "\x7b" ++ pyReprM members ++ "\x7d"

/-- Comma-separated `repr` of list elements. -/
def pyReprL : List Json → String
  | [] => ""
  | [x] => pyRepr x
  | x :: xs => pyRepr x ++ ", " ++ pyReprL xs

/-- Comma-separated `repr` of dict members. -/
def pyReprM : List (String × Json) → String
  | [] => ""
  | [(k, v)] => pyRepr (Json.str k) ++ ": " ++ pyRepr v
  | (k, v) :: xs => pyRepr (Json.str k) ++ ": " ++ pyRepr v ++ ", " ++ pyReprM xs

end

/-- Python `str()` of a parsed JSON value: a string is itself, scalars
render exactly, containers via `repr`. -/
def pyStr : Json → String
  | Json.str s => s
  | j => pyRepr j

/-- Helper of `pySplitDot`: split the remaining characters on the
separator, accumulating the current segment in reverse. -/
def splitSepAux (sep : Char) : List Char → List Char → List String
  | [], cur => [String.mk cur.reverse]
  | c :: cs, cur =>
    if c = sep then String.mk cur.reverse :: splitSepAux sep cs []
    else splitSepAux sep cs (c :: cur)

/-- Python `token.split(".")`: split on every dot; the empty string
yields one empty segment. -/
def pySplitDot (s : String) : List String :=
  splitSepAux '.' s.data []

/-- The ordered candidate claim keys of `_extract_user_id_from_token`. -/
def userIdKeys : List String := ["id", "user_id", "uid", "sub"]

/-- The claim-key loop of `_extract_user_id_from_token`: `str(val)` of
the first candidate whose value is truthy, else the sentinel. -/
def pickUserId (kvs : List (String × Json)) : List String → String
  | [] => "guest"
  | k :: ks =>
    match assocFind kvs k with
    | some v => if pyTruthy v then pyStr v else pickUserId kvs ks
    | none => pickUserId kvs ks

/-- The decoding pipeline of `_extract_user_id_from_token` up to the
parsed payload (source lines 98–106): split on dots — fewer than two
segments fail — then base64url-decode the second segment with padding
normalization, decode UTF-8 ignoring errors, and parse as JSON; `none`
models the caught exception. -/
def second_payload (token : String) : Option Json :=
  match pySplitDot token with
  | _ :: payload_raw :: _ =>
    match b64_with_pad payload_raw with
    | none => none
    | some payload_bytes => json_loads (utf8DecodeIgnore payload_bytes)
  | _ => none

/-- The client's `_extract_user_id_from_token`: decode the payload and
pick a user id from its claims; every failure — too few segments, a
base64 or JSON error, or a non-object payload (whose `.get` raises) —
returns `"guest"`. -/
def extract_user_id_from_token (token : String) : String :=
  match second_payload token with
  | some (Json.obj kvs) => pickUserId kvs userIdKeys
  | some _ => "guest"
  | none => "guest"

/-- Identity selection as the specification states it (amended): the
first truthy value among the ordered candidate keys, coerced to string;
`"guest"` when no candidate key holds a truthy value. -/
def spec_pick (kvs : List (String × Json)) : String :=
  match (userIdKeys.filterMap (fun k =>
      (assocFind kvs k).bind (fun v => if pyTruthy v then some v else none))).head? with
  | some v => pyStr v
  | none => "guest"

/-- The client's static `MODEL_MAPPING` from public model names to
provider model ids. -/
def MODEL_MAPPING : List (String × String) :=
  [("GLM-4.5", "0727-360B-API"),
   ("GLM-4.5-Thinking", "0727-360B-API"),
   ("GLM-4.5-Search", "0727-360B-API"),
   ("GLM-4.5-Air", "0727-106B-API"),
   ("GLM-4.6", "GLM-4-6-API-V1"),
   ("GLM-4.6-Thinking", "GLM-4-6-API-V1"),
   ("GLM-4.6-Search", "GLM-4-6-API-V1")]

/-- The optional keyword arguments `_build_request_body` reads from
`kwargs`: `none` models an absent key. -/
structure BuildOpts where
  stream : Option Bool
  temperature : Option Json
  max_tokens : Option Json
  tools : Option Json

/-- The client's `_build_request_body`.  The `datetime.now()` renderings
and the generated body UUID are inputs (they are the only impure reads);
everything else follows the source: model-id resolution with fallback,
thinking/search sniffing, the fixed template, optional `params` entries,
and `tools` only for non-thinking models. -/
def build_request_body (messages : Json) (model chat_id : String)
    (now_datetime now_date now_time now_weekday body_id : String)
    (opts : BuildOpts) : Json :=
  let upstream_model_id := (assocFind MODEL_MAPPING model).getD "0727-360B-API"
  let is_thinking := containsSubstr (lowerStr model) "thinking"
  let is_search := containsSubstr (lowerStr model) "search"
  let mcp_servers : List Json :=
    if is_search && containsSubstr model "4.5" then [Json.str "deep-web-search"] else []
  let params :=
    (match opts.temperature with
     | some t => [("temperature", t)]
     | none => []) ++
    (match opts.max_tokens with
     | some m => [("max_tokens", m)]
     | none => [])
  let base : List (String × Json) :=
    [("stream", Json.bool (opts.stream.getD true)),
     ("model", Json.str upstream_model_id),
     ("messages", messages),
     ("params", Json.obj params),
     ("features", Json.obj
       [("image_generation", Json.bool false),
        ("web_search", Json.bool is_search),
        ("auto_web_search", Json.bool is_search),
        ("preview_mode", Json.bool false),
        ("flags", Json.arr []),
        ("features", Json.arr []),
        ("enable_thinking", Json.bool is_thinking)]),
     ("background_tasks", Json.obj
       [("title_generation", Json.bool false),
        ("tags_generation", Json.bool false)]),
     ("mcp_servers", Json.arr mcp_servers),
     ("variables", Json.obj
       [("\x7b\x7bUSER_NAME\x7d\x7d", Json.str "Guest"),
        ("\x7b\x7bUSER_LOCATION\x7d\x7d", Json.str "Unknown"),
        ("\x7b\x7bCURRENT_DATETIME\x7d\x7d", Json.str now_datetime),
        ("\x7b\x7bCURRENT_DATE\x7d\x7d", Json.str now_date),
        ("\x7b\x7bCURRENT_TIME\x7d\x7d", Json.str now_time),
        ("\x7b\x7bCURRENT_WEEKDAY\x7d\x7d", Json.str now_weekday),
        ("\x7b\x7bCURRENT_TIMEZONE\x7d\x7d", Json.str "Asia/Shanghai"),
        ("\x7b\x7bUSER_LANGUAGE\x7d\x7d", Json.str "zh-CN")]),
     ("model_item", Json.obj
       [("id", Json.str upstream_model_id),
        ("name", Json.str model),
        ("owned_by", Json.str "z.ai")]),
     ("chat_id", Json.str chat_id),
     ("id", Json.str body_id)]
  match opts.tools with
  | some t => if is_thinking then Json.obj base else Json.obj (base ++ [("tools", t)])
  | none => Json.obj base

/-- Whether a built body (a JSON object) carries a given top-level key. -/
def jsonHasKey (j : Json) (k : String) : Bool :=
  match j with
  | Json.obj kvs => kvs.any (fun p => p.1 = k)
  | _ => false

/-- Top-level field lookup in a built body. -/
def jsonFind (j : Json) (k : String) : Option Json :=
  match j with
  | Json.obj kvs => assocFind kvs k
  | _ => none

/-- One line of `_stream_request`'s loop: empty byte lines are skipped
(`if line:`); otherwise decode as UTF-8, falling back to latin-1 (which
cannot fail), and append a newline. -/
def decode_line (raw : List Nat) : Option String :=
  if raw.isEmpty then none
  else
    match utf8DecodeList raw with
    | some cs => some (String.mk cs ++ "\n")
    | none => some (latin1Decode raw ++ "\n")

/-- The sequence `_stream_request` yields over the transport's raw byte
lines, once the initiating request has returned success. -/
def stream_lines (lines : List (List Nat)) : List String :=
  lines.filterMap decode_line

/-- One iteration of `_non_stream_request`'s aggregation loop over the
accumulator pair (full content, reasoning content).  All parsing
failures — a non-`data: ` line, the terminator, bad JSON, a wrong
discriminator, a non-dict payload (`.get` raises) or a non-string delta
(`+=` raises) — leave the accumulators unchanged. -/
def agg_step (acc : String × String) (line : String) : String × String :=
  if !startsWithS line "data: " then acc
  else
    let data_str := pyStrip (strDrop line 6)
    if data_str = "[DONE]" ∨ data_str = "" then acc
    else
      match json_loads data_str with
      | some (Json.obj kvs) =>
        match assocFind kvs "type" with
        | some (Json.str t) =>
          if t = "chat:completion" then
            match (assocFind kvs "data").getD (Json.obj []) with
            | Json.obj d =>
              match assocFind d "phase" with
              | some (Json.str ph) =>
                if ph = "thinking" then
                  match (assocFind d "delta_content").getD (Json.str "") with
                  | Json.str s => (acc.1, acc.2 ++ s)
                  | _ => acc
                else if ph = "answer" then
                  match (assocFind d "delta_content").getD (Json.str "") with
                  | Json.str s => (acc.1 ++ s, acc.2)
                  | _ => acc
                else acc
              | _ => acc
            | _ => acc
          else acc
        | _ => acc
      | _ => acc

/-- The client's `_non_stream_request` aggregation over the decoded
stream lines: fold the events, then trim the content and return the
trimmed reasoning only when non-empty. -/
def non_stream_request (lines : List String) : String × Option String :=
  let acc := lines.foldl agg_step ("", "")
  (pyStrip acc.1, if acc.2 = "" then none else some (pyStrip acc.2))

/-- The client's `get_content_from_chunk`: the extracted delta of one SSE
line, `""` (as a JSON string) on every failure path.  The result is a
JSON value because Python returns the raw `delta_content` field, whatever
its type. -/
def get_content_from_chunk (chunk : String) : Json :=
  if startsWithS chunk "data: " then
    let data_str := pyStrip (strDrop chunk 6)
    if data_str = "[DONE]" ∨ data_str = "" then Json.str ""
    else
      match json_loads data_str with
      | some (Json.obj kvs) =>
        match assocFind kvs "type" with
        | some (Json.str t) =>
          if t = "chat:completion" then
            match (assocFind kvs "data").getD (Json.obj []) with
            | Json.obj d => (assocFind d "delta_content").getD (Json.str "")
            | _ => Json.str ""
          else Json.str ""
        | _ => Json.str ""
      | _ => Json.str ""
  else Json.str ""

/-- The parsed payload of an SSE line, when it is a `data: ` frame whose
data part is neither the terminator nor empty and parses as JSON. -/
def chunk_payload (chunk : String) : Option Json :=
  if startsWithS chunk "data: " then
    let data_str := pyStrip (strDrop chunk 6)
    if data_str = "[DONE]" ∨ data_str = "" then none
    else json_loads data_str
  else none

/-- Classification of one stream line, as the specification's Response
Aggregator contract states it: a reasoning delta, an answer delta, or an
ignored line. -/
inductive Frame where
  | thinking (delta : String) : Frame
  | answer (delta : String) : Frame
  | other : Frame

/-- The specification's event classification of one stream line: a
`data: ` frame with the `chat:completion` discriminator contributes its
string `delta_content` under its phase; every other phase, frame or line
is ignored. -/
def line_event (line : String) : Frame :=
  if !startsWithS line "data: " then Frame.other
  else
    let data_str := pyStrip (strDrop line 6)
    if data_str = "[DONE]" ∨ data_str = "" then Frame.other
    else
      match json_loads data_str with
      | some (Json.obj kvs) =>
        match assocFind kvs "type" with
        | some (Json.str t) =>
          if t = "chat:completion" then
            match (assocFind kvs "data").getD (Json.obj []) with
            | Json.obj d =>
              match assocFind d "phase" with
              | some (Json.str ph) =>
                if ph = "thinking" then
                  match (assocFind d "delta_content").getD (Json.str "") with
                  | Json.str s => Frame.thinking s
                  | _ => Frame.other
                else if ph = "answer" then
                  match (assocFind d "delta_content").getD (Json.str "") with
                  | Json.str s => Frame.answer s
                  | _ => Frame.other
                else Frame.other
              | _ => Frame.other
            | _ => Frame.other
          else Frame.other
        | _ => Frame.other
      | _ => Frame.other

/-- The specification's fold step: append a thinking delta to the
reasoning accumulator, an answer delta to the content accumulator, and
ignore everything else. -/
def spec_step (acc : String × String) (line : String) : String × String :=
  match line_event line with
  | Frame.thinking d => (acc.1, acc.2 ++ d)
  | Frame.answer d => (acc.1 ++ d, acc.2)
  | Frame.other => acc

/-- Whether a parsed SSE payload carries the `chat:completion`
discriminator. -/
def hasCCType (j : Json) : Bool :=
  match j with
  | Json.obj kvs =>
    match assocFind kvs "type" with
    | some (Json.str t) => t = "chat:completion"
    | _ => false
  | _ => false

/-- Claim C1: the signature the engine produces is exactly the two-layer
HMAC-SHA256 construction of the specification — 5-minute window index,
hex-text derived key (not raw digest bytes), and the exact canonical
string — for every message, request id, timestamp and identity. -/
theorem C1_signature_matches_spec (secret message_text request_id : String)
    (timestamp_ms : Nat) (identity : String) :
    generate_signature secret message_text request_id timestamp_ms identity =
      signature_spec secret message_text request_id timestamp_ms identity := rfl

/-- A successful strict UTF-8 decode of a non-empty byte sequence is a
non-empty character sequence. -/
theorem utf8DecodeFuel_cons_ne_nil (fuel b : Nat) (bs : List Nat) (cs : List Char)
    (h : utf8DecodeFuel (fuel + 1) (b :: bs) = some cs) : cs ≠ [] := by
  unfold utf8DecodeFuel at h
  cases hx : decodeUtf8One (b :: bs) with
  | none => rw [hx] at h; exact absurd h (by simp)
  | some p =>
    rw [hx] at h
    obtain ⟨cp, rest⟩ := p
    simp only [Option.map_eq_some'] at h
    obtain ⟨cs0, _, h2⟩ := h
    rw [← h2]
    exact List.cons_ne_nil _ _

/-- `String.mk` of a non-empty character list is not the empty string. -/
theorem stringMk_ne_empty (cs : List Char) (h : cs ≠ []) : String.mk cs ≠ "" := by
  intro hc
  exact h (congrArg String.data hc)

/-- A decoded stream unit comes from a non-empty raw line and is a
non-empty text with a trailing newline. -/
theorem decode_line_shape (raw : List Nat) (u : String) (h : decode_line raw = some u) :
    raw ≠ [] ∧ ∃ s, u = s ++ "\n" ∧ s ≠ "" := by
  unfold decode_line at h
  by_cases he : raw.isEmpty
  · rw [if_pos he] at h; exact absurd h (by simp)
  · rw [if_neg he] at h
    have hraw : raw ≠ [] := by
      intro hx; exact he (by rw [hx]; rfl)
    refine ⟨hraw, ?_⟩
    cases hd : utf8DecodeList raw with
    | some cs =>
      rw [hd] at h
      refine ⟨String.mk cs, by exact (Option.some.injEq _ _).mp h |>.symm, ?_⟩
      apply stringMk_ne_empty
      cases raw with
      | nil => exact absurd rfl hraw
      | cons b bs =>
        have hd2 : utf8DecodeFuel (bs.length + 1) (b :: bs) = some cs := hd
        exact utf8DecodeFuel_cons_ne_nil bs.length b bs cs hd2
    | none =>
      rw [hd] at h
      refine ⟨latin1Decode raw, (Option.some.injEq _ _).mp h |>.symm, ?_⟩
      unfold latin1Decode
      apply stringMk_ne_empty
      intro hx
      exact hraw (List.map_eq_nil_iff.mp hx)

/-- Claim C9: every unit the stream decoder yields is a successfully
decoded non-empty raw line with a single trailing newline appended, and
its text before that terminator is non-empty (blank transport lines are
never yielded). -/
theorem C9_stream_units (lines : List (List Nat)) (u : String)
    (h : u ∈ stream_lines lines) :
    ∃ raw, raw ∈ lines ∧ raw ≠ [] ∧ decode_line raw = some u ∧
      ∃ s, u = s ++ "\n" ∧ s ≠ "" := by
  obtain ⟨raw, hmem, hdec⟩ := List.mem_filterMap.mp h
  obtain ⟨hne, hs⟩ := decode_line_shape raw u hdec
  exact ⟨raw, hmem, hne, hdec, hs⟩

/-- Claim C9 witness: the concrete one-line stream `[104, 105]` yields
exactly the decoded unit `"hi\n"`. -/
theorem C9_stream_units_witness :
    ∃ raw, raw ∈ [[104, 105]] ∧ raw ≠ [] ∧ decode_line raw = some "hi\n" ∧
      ∃ s, "hi\n" = s ++ "\n" ∧ s ≠ "" :=
  C9_stream_units [[104, 105]] "hi\n" (by simp [stream_lines, decode_line]; rfl)

/-- Claim C3: interposing a single malformed (non-UTF-8-decodable) line
anywhere in the stream never terminates it — every later line that
decodes is still yielded by the stream decoder. -/
theorem C3_malformed_line_resilience (pre post : List (List Nat)) (bad : List Nat)
    (l : List Nat) (u : String)
    (_hbad : utf8DecodeList bad = none)
    (hmem : l ∈ post) (hdec : decode_line l = some u) :
    u ∈ stream_lines (pre ++ bad :: post) := by
  unfold stream_lines
  rw [List.filterMap_append]
  apply List.mem_append_right
  rw [List.filterMap_cons]
  have hpost : u ∈ post.filterMap decode_line :=
    List.mem_filterMap.mpr ⟨l, hmem, hdec⟩
  cases hb : decode_line bad with
  | none => exact hpost
  | some v => exact List.mem_cons_of_mem v hpost

/-- Claim C3 witness: with the undecodable line `[255]` interposed, the
later line `[104]` is still yielded as `"h\n"`. -/
theorem C3_malformed_line_resilience_witness :
    "h\n" ∈ stream_lines ([[100, 97]] ++ [255] :: [[104]]) :=
  C3_malformed_line_resilience [[100, 97]] [[104]] [255] [104] "h\n"
    (by decide) (by simp) (by simp [decode_line]; rfl)

/-- Claim C7: whenever the model name contains "thinking"
(case-insensitively), the built request body has no top-level `tools`
field, whatever options — including tool definitions — were supplied. -/
theorem C7_thinking_suppresses_tools (messages : Json)
    (model chat_id now_datetime now_date now_time now_weekday body_id : String)
    (opts : BuildOpts)
    (h : containsSubstr (lowerStr model) "thinking" = true) :
    jsonHasKey (build_request_body messages model chat_id
      now_datetime now_date now_time now_weekday body_id opts) "tools" = false := by
  obtain ⟨s, tp, mx, tl⟩ := opts
  cases tl with
  | none => simp only [build_request_body, jsonHasKey, h]; rfl
  | some t => simp only [build_request_body, jsonHasKey, h, if_true]; rfl

/-- Claim C7 witness: a thinking model with tools supplied still builds a
body without a `tools` field. -/
theorem C7_thinking_suppresses_tools_witness :
    jsonHasKey (build_request_body (Json.arr []) "GLM-4.5-Thinking" "c"
      "2025-01-01 00:00:00" "2025-01-01" "00:00:00" "Wednesday" "b"
      ⟨some true, none, none, some (Json.arr [])⟩) "tools" = false :=
  C7_thinking_suppresses_tools (Json.arr []) "GLM-4.5-Thinking" "c"
    "2025-01-01 00:00:00" "2025-01-01" "00:00:00" "Wednesday" "b"
    ⟨some true, none, none, some (Json.arr [])⟩ (by decide)

/-- Claim C8: resolving the model never fails — a name in the static
mapping resolves to its mapped provider id, and any other name falls back
to the default provider id, in both cases yielding a body whose `model`
field carries the resolved id. -/
theorem C8_model_resolution (messages : Json)
    (model chat_id now_datetime now_date now_time now_weekday body_id : String)
    (opts : BuildOpts) :
    (∀ pid, assocFind MODEL_MAPPING model = some pid →
      jsonFind (build_request_body messages model chat_id
        now_datetime now_date now_time now_weekday body_id opts) "model" =
        some (Json.str pid)) ∧
    (assocFind MODEL_MAPPING model = none →
      jsonFind (build_request_body messages model chat_id
        now_datetime now_date now_time now_weekday body_id opts) "model" =
        some (Json.str "0727-360B-API")) := by
  obtain ⟨s, tp, mx, tl⟩ := opts
  have hfind : jsonFind (build_request_body messages model chat_id
      now_datetime now_date now_time now_weekday body_id ⟨s, tp, mx, tl⟩) "model" =
      some (Json.str ((assocFind MODEL_MAPPING model).getD "0727-360B-API")) := by
    cases tl with
    | none => rfl
    | some t =>
      simp only [build_request_body]
      cases containsSubstr (lowerStr model) "thinking" with
      | false => rfl
      | true => rfl
  constructor
  · intro pid hp
    rw [hfind, hp]
    rfl
  · intro hp
    rw [hfind, hp]
    rfl

/-- Claim C8 witness: a mapped name resolves to its provider id and an
unrecognized name falls back to the default id. -/
theorem C8_model_resolution_witness :
    jsonFind (build_request_body (Json.arr []) "GLM-4.6" "c"
      "d" "e" "f" "g" "b" ⟨some true, none, none, none⟩) "model" =
      some (Json.str "GLM-4-6-API-V1") ∧
    jsonFind (build_request_body (Json.arr []) "No-Such-Model" "c"
      "d" "e" "f" "g" "b" ⟨some true, none, none, none⟩) "model" =
      some (Json.str "0727-360B-API") :=
  ⟨(C8_model_resolution (Json.arr []) "GLM-4.6" "c" "d" "e" "f" "g" "b"
      ⟨some true, none, none, none⟩).1 "GLM-4-6-API-V1" (by rfl),
   (C8_model_resolution (Json.arr []) "No-Such-Model" "c" "d" "e" "f" "g" "b"
      ⟨some true, none, none, none⟩).2 (by rfl)⟩

/-- A line that does not start with `data: ` extracts to the empty
string. -/
theorem gc_not_data (chunk : String) (h : startsWithS chunk "data: " = false) :
    get_content_from_chunk chunk = Json.str "" := by
  simp [get_content_from_chunk, h]

/-- A terminator or empty data part extracts to the empty string. -/
theorem gc_done (chunk : String)
    (h : pyStrip (strDrop chunk 6) = "[DONE]" ∨ pyStrip (strDrop chunk 6) = "") :
    get_content_from_chunk chunk = Json.str "" := by
  simp only [get_content_from_chunk]
  by_cases hs : startsWithS chunk "data: " = true
  · simp [hs, h]
  · simp [hs]

/-- A data part that fails JSON parsing extracts to the empty string. -/
theorem gc_parse_fail (chunk : String)
    (h : json_loads (pyStrip (strDrop chunk 6)) = none) :
    get_content_from_chunk chunk = Json.str "" := by
  simp only [get_content_from_chunk]
  by_cases hs : startsWithS chunk "data: " = true
  · by_cases hdone : pyStrip (strDrop chunk 6) = "[DONE]" ∨ pyStrip (strDrop chunk 6) = ""
    · simp [hs, hdone]
    · simp [hs, hdone, h]
  · simp [hs]

/-- A parsed payload without the `chat:completion` discriminator extracts
to the empty string. -/
theorem gc_not_cc (chunk : String) (j : Json)
    (h1 : chunk_payload chunk = some j) (h2 : hasCCType j = false) :
    get_content_from_chunk chunk = Json.str "" := by
  simp only [chunk_payload] at h1
  simp only [get_content_from_chunk]
  by_cases hs : startsWithS chunk "data: " = true
  · simp only [hs, if_true] at h1 ⊢
    by_cases hdone : pyStrip (strDrop chunk 6) = "[DONE]" ∨ pyStrip (strDrop chunk 6) = ""
    · simp [hdone]
    · simp only [hdone, if_neg, if_false] at h1 ⊢
      rw [h1]
      cases j with
      | obj kvs =>
        simp only [hasCCType] at h2
        cases ht : assocFind kvs "type" with
        | none => simp [ht]
        | some jt =>
          rw [ht] at h2
          cases jt with
          | str t => simp_all
          | null => simp [ht]
          | bool b => simp [ht]
          | int n => simp [ht]
          | float r => simp [ht]
          | arr es => simp [ht]
          | obj ms => simp [ht]
      | null => simp
      | bool b => simp
      | int n => simp
      | float r => simp
      | str s2 => simp
      | arr es => simp
  · simp [hs] at h1

/-- On a `chat:completion` frame whose `data` member resolves to an
object, the extraction returns exactly the `delta_content` member,
defaulting to the empty string — a formula that never reads `phase`. -/
theorem gc_of_payload_cc (chunk : String) (kvs d : List (String × Json))
    (h1 : chunk_payload chunk = some (Json.obj kvs))
    (h2 : assocFind kvs "type" = some (Json.str "chat:completion"))
    (h3 : (assocFind kvs "data").getD (Json.obj []) = Json.obj d) :
    get_content_from_chunk chunk = (assocFind d "delta_content").getD (Json.str "") := by
  simp only [chunk_payload] at h1
  simp only [get_content_from_chunk]
  by_cases hs : startsWithS chunk "data: " = true
  · simp only [hs, if_true] at h1 ⊢
    by_cases hdone : pyStrip (strDrop chunk 6) = "[DONE]" ∨ pyStrip (strDrop chunk 6) = ""
    · simp [hdone] at h1
    · simp only [hdone, if_neg, if_false] at h1 ⊢
      simp [h1, h2, h3]
  · simp [hs] at h1

/-- Claim C4: `get_content_from_chunk` never fails and returns the empty
string on a non-`data: ` line, on the `[DONE]` terminator or an empty
data part, on a JSON parse failure, and on a payload without the
`chat:completion` discriminator; otherwise it returns the payload's
`data.delta_content` member (empty string when absent).  In particular
`"data: [DONE]"` and `"not-a-data-line"` yield `""` and the sample
completion frame yields `"x"`. -/
theorem C4_chunk_extraction :
    (∀ chunk : String, startsWithS chunk "data: " = false →
      get_content_from_chunk chunk = Json.str "") ∧
    (∀ chunk : String,
      pyStrip (strDrop chunk 6) = "[DONE]" ∨ pyStrip (strDrop chunk 6) = "" →
      get_content_from_chunk chunk = Json.str "") ∧
    (∀ chunk : String, json_loads (pyStrip (strDrop chunk 6)) = none →
      get_content_from_chunk chunk = Json.str "") ∧
    (∀ (chunk : String) (j : Json), chunk_payload chunk = some j →
      hasCCType j = false → get_content_from_chunk chunk = Json.str "") ∧
    (∀ (chunk : String) (kvs d : List (String × Json)),
      chunk_payload chunk = some (Json.obj kvs) →
      assocFind kvs "type" = some (Json.str "chat:completion") →
      (assocFind kvs "data").getD (Json.obj []) = Json.obj d →
      get_content_from_chunk chunk = (assocFind d "delta_content").getD (Json.str "")) ∧
    get_content_from_chunk "data: [DONE]" = Json.str "" ∧
    get_content_from_chunk "not-a-data-line" = Json.str "" ∧
    get_content_from_chunk
      "data: \x7b\"type\":\"chat:completion\",\"data\":\x7b\"delta_content\":\"x\"\x7d\x7d" =
      Json.str "x" :=
  ⟨gc_not_data, gc_done, gc_parse_fail, gc_not_cc, gc_of_payload_cc, rfl, rfl, rfl⟩

/-- Claim C4 witness: the characterization applied at concrete inputs of
each hypothesis-bearing clause. -/
theorem C4_chunk_extraction_witness :
    get_content_from_chunk "xnot" = Json.str "" ∧
    get_content_from_chunk "data: \x7b\"oops\"" = Json.str "" ∧
    get_content_from_chunk "data: \x7b\"type\":\"other\"\x7d" = Json.str "" :=
  ⟨C4_chunk_extraction.1 "xnot" (by decide),
   C4_chunk_extraction.2.2.1 "data: \x7b\"oops\"" (by rfl),
   C4_chunk_extraction.2.2.2.1 "data: \x7b\"type\":\"other\"\x7d"
     (Json.obj [("type", Json.str "other")]) (by rfl) (by rfl)⟩

/-- Claim C10: extraction does not inspect the phase discriminator — any
two `chat:completion` frames with the same `delta_content` member
extract identically whatever their (possibly different) phases, and the
concrete thinking/answer/unknown-phase frames all yield `"x"`. -/
theorem C10_phase_not_inspected :
    (∀ (c1 c2 : String) (kvs1 kvs2 d1 d2 : List (String × Json)),
      chunk_payload c1 = some (Json.obj kvs1) →
      chunk_payload c2 = some (Json.obj kvs2) →
      assocFind kvs1 "type" = some (Json.str "chat:completion") →
      assocFind kvs2 "type" = some (Json.str "chat:completion") →
      (assocFind kvs1 "data").getD (Json.obj []) = Json.obj d1 →
      (assocFind kvs2 "data").getD (Json.obj []) = Json.obj d2 →
      assocFind d1 "delta_content" = assocFind d2 "delta_content" →
      get_content_from_chunk c1 = get_content_from_chunk c2) ∧
    get_content_from_chunk
      "data: \x7b\"type\":\"chat:completion\",\"data\":\x7b\"phase\":\"thinking\",\"delta_content\":\"x\"\x7d\x7d" =
      Json.str "x" ∧
    get_content_from_chunk
      "data: \x7b\"type\":\"chat:completion\",\"data\":\x7b\"phase\":\"answer\",\"delta_content\":\"x\"\x7d\x7d" =
      Json.str "x" ∧
    get_content_from_chunk
      "data: \x7b\"type\":\"chat:completion\",\"data\":\x7b\"phase\":\"weird\",\"delta_content\":\"x\"\x7d\x7d" =
      Json.str "x" := by
  refine ⟨?_, rfl, rfl, rfl⟩
  intro c1 c2 kvs1 kvs2 d1 d2 h1 h2 ht1 ht2 hd1 hd2 hdelta
  rw [gc_of_payload_cc c1 kvs1 d1 h1 ht1 hd1, gc_of_payload_cc c2 kvs2 d2 h2 ht2 hd2, hdelta]

/-- Claim C10 witness: a thinking-phase frame and an answer-phase frame
with the same delta extract to the same value. -/
theorem C10_phase_not_inspected_witness :
    get_content_from_chunk
      "data: \x7b\"type\":\"chat:completion\",\"data\":\x7b\"phase\":\"thinking\",\"delta_content\":\"y\"\x7d\x7d" =
    get_content_from_chunk
      "data: \x7b\"type\":\"chat:completion\",\"data\":\x7b\"phase\":\"answer\",\"delta_content\":\"y\"\x7d\x7d" :=
  C10_phase_not_inspected.1
    "data: \x7b\"type\":\"chat:completion\",\"data\":\x7b\"phase\":\"thinking\",\"delta_content\":\"y\"\x7d\x7d"
    "data: \x7b\"type\":\"chat:completion\",\"data\":\x7b\"phase\":\"answer\",\"delta_content\":\"y\"\x7d\x7d"
    [("type", Json.str "chat:completion"),
     ("data", Json.obj [("phase", Json.str "thinking"), ("delta_content", Json.str "y")])]
    [("type", Json.str "chat:completion"),
     ("data", Json.obj [("phase", Json.str "answer"), ("delta_content", Json.str "y")])]
    [("phase", Json.str "thinking"), ("delta_content", Json.str "y")]
    [("phase", Json.str "answer"), ("delta_content", Json.str "y")]
    (by rfl) (by rfl) (by rfl) (by rfl) (by rfl) (by rfl) (by rfl)

/-- `takeWhile` passes over a prefix that wholly satisfies the
predicate. -/
theorem takeWhile_all_append {α : Type} (p : α → Bool) (l1 l2 : List α)
    (h : ∀ a ∈ l1, p a = true) :
    (l1 ++ l2).takeWhile p = l1 ++ l2.takeWhile p := by
  induction l1 with
  | nil => simp
  | cons a t ih =>
    have ha := h a (List.mem_cons_self a t)
    simp [List.takeWhile_cons, ha, ih (fun x hx => h x (List.mem_cons_of_mem a hx))]

/-- `dropWhile` skips a prefix that wholly satisfies the predicate. -/
theorem dropWhile_all_append {α : Type} (p : α → Bool) (l1 l2 : List α)
    (h : ∀ a ∈ l1, p a = true) :
    (l1 ++ l2).dropWhile p = l2.dropWhile p := by
  induction l1 with
  | nil => simp
  | cons a t ih =>
    have ha := h a (List.mem_cons_self a t)
    simp [List.dropWhile_cons, ha, ih (fun x hx => h x (List.mem_cons_of_mem a hx))]

/-- An alphabet character is not the padding character. -/
theorem b64CharVal_ne_pad (c : Char) (h : (b64CharVal c).isSome = true) : c ≠ '=' := by
  intro he
  rw [he] at h
  exact absurd h (by decide)

/-- A base64 segment of alphabet characters whose length is 1 mod 4 fails
to decode even after padding normalization (`binascii.Error`). -/
theorem b64_with_pad_rem1 (seg : String)
    (hall : seg.data.all (fun c => (b64CharVal c).isSome) = true)
    (hlen : seg.length % 4 = 1) :
    b64_with_pad seg = none := by
  have hall2 : ∀ c ∈ seg.data, (b64CharVal c).isSome = true := by
    intro c hc
    exact List.all_eq_true.mp hall c hc
  have hpad3 : (4 - seg.length % 4) % 4 = 3 := by rw [hlen]
  simp only [b64_with_pad, hpad3, urlsafe_b64decode]
  have hdata : (seg ++ String.mk (List.replicate 3 '=')).data =
      seg.data ++ List.replicate 3 '=' := rfl
  have hcs : ((seg ++ String.mk (List.replicate 3 '=')).data.filter
      (fun c => (b64CharVal c).isSome || c = '=')) = seg.data ++ List.replicate 3 '=' := by
    rw [hdata, List.filter_append]
    rw [List.filter_eq_self.mpr (fun a ha => by simp [hall2 a ha])]
    rfl
  rw [hcs]
  rw [if_neg]
  intro hC
  obtain ⟨_, _, hne1, _⟩ := hC
  apply hne1
  rw [takeWhile_all_append _ seg.data (List.replicate 3 '=')
    (fun a ha => decide_eq_true (b64CharVal_ne_pad a (hall2 a ha)))]
  have hrep : (List.replicate 3 '=').takeWhile (fun c => decide (c ≠ '=')) = [] := rfl
  rw [hrep, List.append_nil]
  exact hlen

/-- Claim C5: identity extraction is total in the embedding, and every
failure path returns the sentinel: fewer than two dot segments, a failing
base64url decode (in particular any alphabet segment of length 1 mod 4),
or a payload that does not parse as JSON. -/
theorem C5_extract_totality :
    (∀ token : String, (pySplitDot token).length < 2 →
      extract_user_id_from_token token = "guest") ∧
    (∀ (token p1 praw : String) (rest : List String),
      pySplitDot token = p1 :: praw :: rest → b64_with_pad praw = none →
      extract_user_id_from_token token = "guest") ∧
    (∀ seg : String, seg.data.all (fun c => (b64CharVal c).isSome) = true →
      seg.length % 4 = 1 → b64_with_pad seg = none) ∧
    (∀ (token p1 praw : String) (rest : List String) (bs : List Nat),
      pySplitDot token = p1 :: praw :: rest → b64_with_pad praw = some bs →
      json_loads (utf8DecodeIgnore bs) = none →
      extract_user_id_from_token token = "guest") := by
  refine ⟨?_, ?_, b64_with_pad_rem1, ?_⟩
  · intro token hlen
    unfold extract_user_id_from_token second_payload
    cases hsp : pySplitDot token with
    | nil => rfl
    | cons a tl =>
      cases tl with
      | nil => rfl
      | cons b tl2 =>
        rw [hsp] at hlen
        simp only [List.length_cons] at hlen
        exact absurd hlen (by omega)
  · intro token p1 praw rest hsp hb
    unfold extract_user_id_from_token second_payload
    rw [hsp]
    simp [hb]
  · intro token p1 praw rest bs hsp hb hj
    unfold extract_user_id_from_token second_payload
    rw [hsp]
    simp [hb, hj]

/-- Claim C5 witness: concrete failing tokens of each kind return the
sentinel, and the concrete remainder-1 segment fails to decode. -/
theorem C5_extract_totality_witness :
    extract_user_id_from_token "nodots" = "guest" ∧
    extract_user_id_from_token "x.AAAAA" = "guest" ∧
    b64_with_pad "AAAAA" = none ∧
    extract_user_id_from_token "x.AAAA" = "guest" :=
  ⟨C5_extract_totality.1 "nodots" (by decide),
   C5_extract_totality.2.1 "x.AAAAA" "x" "AAAAA" [] (by rfl) (by rfl),
   C5_extract_totality.2.2.1 "AAAAA" (by decide) (by decide),
   C5_extract_totality.2.2.2 "x.AAAA" "x" "AAAA" [] [0, 0, 0] (by rfl) (by rfl) (by rfl)⟩

/-- The source's candidate-key loop returns `str` of the first truthy
candidate value, i.e. the head of the truthy-filtered candidate list. -/
theorem pickUserId_eq_first_truthy (kvs : List (String × Json)) (ks : List String) :
    pickUserId kvs ks =
      (match (ks.filterMap (fun k =>
          (assocFind kvs k).bind (fun v => if pyTruthy v then some v else none))).head? with
       | some v => pyStr v
       | none => "guest") := by
  induction ks with
  | nil => rfl
  | cons k ks ih =>
    unfold pickUserId
    cases hf : assocFind kvs k with
    | none => simp [List.filterMap_cons, hf, ih]
    | some v =>
      by_cases ht : pyTruthy v = true
      · simp [List.filterMap_cons, hf, ht]
      · have ht2 : pyTruthy v = false := by
          revert ht; cases pyTruthy v <;> simp
        simp [List.filterMap_cons, hf, ht2, ih]

/-- Claim C6 (amended): for every token whose second dot-separated
segment decodes to a JSON object, extraction returns the first truthy
value among the ordered candidate keys `id`, `user_id`, `uid`, `sub`
coerced to string, and the sentinel when no candidate value is truthy. -/
theorem C6_first_truthy_selection (token : String) (kvs : List (String × Json))
    (h : second_payload token = some (Json.obj kvs)) :
    extract_user_id_from_token token = spec_pick kvs := by
  unfold extract_user_id_from_token
  rw [h]
  show pickUserId kvs userIdKeys = spec_pick kvs
  rw [pickUserId_eq_first_truthy]
  rfl

/-- Claim C6 witness: a payload with a falsy `id` and truthy `uid`
resolves to the first truthy candidate, `"7"`. -/
theorem C6_first_truthy_selection_witness :
    extract_user_id_from_token "h.eyJpZCI6IiIsInVpZCI6N30" =
      spec_pick [("id", Json.str ""), ("uid", Json.int 7)] :=
  C6_first_truthy_selection "h.eyJpZCI6IiIsInVpZCI6N30"
    [("id", Json.str ""), ("uid", Json.int 7)] (by rfl)

/-- Claim C6 counterexample: the token whose payload is
`{"id":0,"sub":"s"}` has the first candidate key `id` present with value
`0` (whose string coercion is `"0"`), yet extraction skips the falsy
value and returns `"s"`. -/
theorem C6_counterexample :
    second_payload "h.eyJpZCI6MCwic3ViIjoicyJ9" =
      some (Json.obj [("id", Json.int 0), ("sub", Json.str "s")]) ∧
    pyStr (Json.int 0) = "0" ∧
    extract_user_id_from_token "h.eyJpZCI6MCwic3ViIjoicyJ9" = "s" ∧
    ("s" : String) ≠ "0" :=
  ⟨by rfl, by simp [pyStr, pyRepr]; rfl, by rfl, by decide⟩

/-- The source's aggregation step agrees with the specification's
classification step on every accumulator and line. -/
theorem agg_step_eq (acc : String × String) (line : String) :
    agg_step acc line = spec_step acc line := by
  unfold agg_step spec_step line_event
  by_cases h1 : startsWithS line "data: " = true
  · simp only [h1, Bool.not_true, Bool.false_eq_true, if_false]
    by_cases h2 : pyStrip (strDrop line 6) = "[DONE]" ∨ pyStrip (strDrop line 6) = ""
    · simp [h2]
    · simp only [if_neg h2]
      cases hj : json_loads (pyStrip (strDrop line 6)) with
      | none => rfl
      | some j =>
        cases j with
        | null => rfl
        | bool b => rfl
        | int n => rfl
        | float r => rfl
        | str s => rfl
        | arr es => rfl
        | obj kvs =>
          dsimp only
          cases ht : assocFind kvs "type" with
          | none => rfl
          | some jt =>
            cases jt with
            | null => rfl
            | bool b => rfl
            | int n => rfl
            | float r => rfl
            | arr es => rfl
            | obj ms => rfl
            | str t =>
              dsimp only
              by_cases h3 : t = "chat:completion"
              · subst h3
                rw [if_pos rfl, if_pos rfl]
                cases hd : (assocFind kvs "data").getD (Json.obj []) with
                | null => rfl
                | bool b => rfl
                | int n => rfl
                | float r => rfl
                | str s => rfl
                | arr es => rfl
                | obj d =>
                  dsimp only
                  cases hp : assocFind d "phase" with
                  | none => rfl
                  | some jp =>
                    cases jp with
                    | null => rfl
                    | bool b => rfl
                    | int n => rfl
                    | float r => rfl
                    | arr es => rfl
                    | obj ms => rfl
                    | str ph =>
                      dsimp only
                      by_cases h4 : ph = "thinking"
                      · subst h4
                        rw [if_pos rfl, if_pos rfl]
                        cases hdc : (assocFind d "delta_content").getD (Json.str "") <;> rfl
                      · rw [if_neg h4, if_neg h4]
                        by_cases h5 : ph = "answer"
                        · subst h5
                          rw [if_pos rfl, if_pos rfl]
                          cases hdc : (assocFind d "delta_content").getD (Json.str "") <;> rfl
                        · rw [if_neg h5, if_neg h5]
              · rw [if_neg h3, if_neg h3]
  · simp only [Bool.not_eq_true] at h1
    simp [h1]

/-- The source fold and the specification fold agree from any starting
accumulator. -/
theorem foldl_agg_eq_spec (lines : List String) (acc : String × String) :
    lines.foldl agg_step acc = lines.foldl spec_step acc := by
  induction lines generalizing acc with
  | nil => rfl
  | cons l ls ih => simp only [List.foldl_cons, agg_step_eq, ih]

/-- Claim C2: non-streaming aggregation is exactly the specification's
fold — thinking deltas append to the reasoning accumulator, answer deltas
to the content accumulator, everything else is ignored; the result is the
trimmed content and, when non-empty, the trimmed reasoning (else absent).
The four-frame scenario yields content `"Hi there"` and reasoning
`"A"`. -/
theorem C2_aggregation :
    (∀ lines : List String, non_stream_request lines =
      (pyStrip (lines.foldl spec_step ("", "")).1,
       if (lines.foldl spec_step ("", "")).2 = "" then none
       else some (pyStrip (lines.foldl spec_step ("", "")).2))) ∧
    non_stream_request
      ["data: \x7b\"type\":\"chat:completion\",\"data\":\x7b\"phase\":\"thinking\",\"delta_content\":\"A\"\x7d\x7d\n",
       "data: \x7b\"type\":\"chat:completion\",\"data\":\x7b\"phase\":\"answer\",\"delta_content\":\"Hi\"\x7d\x7d\n",
       "data: \x7b\"type\":\"chat:completion\",\"data\":\x7b\"phase\":\"answer\",\"delta_content\":\" there\"\x7d\x7d\n",
       "data: [DONE]\n"] = ("Hi there", some "A") := by
  constructor
  · intro lines
    unfold non_stream_request
    rw [foldl_agg_eq_spec]
  · rfl

end Zai
